import Mathlib

/-!
Verification of the HTTP-client interceptor pipeline and the Dropdown
state container of this repository against its specification.

The implementation files (httpClient.ts, apiError.ts, Dropdown.tsx) are not
present under src/; only their test suites, the i18n routing table
(src/src/i18n/routing.ts) and page glue are. The definitions below are
therefore modelled from the spec (sections 3, 4.1-4.4 and 8), with the test
suites as evidence of the concrete behaviour where they pin it down.
-/

/-- Modelled from the spec: the values a request body field may hold
(§4.1 rule 2): null, undefined, strings, numbers, booleans, Date values and
binary file-like values. A Date carries its timestamp in milliseconds since
the Unix epoch; a File carries an opaque identifier. -/
inductive JsonVal where
  | vNull : JsonVal
  | vUndefined : JsonVal
  | vStr : String → JsonVal
  | vNum : Nat → JsonVal
  | vBool : Bool → JsonVal
  | vDate : Nat → JsonVal
  | vFile : String → JsonVal
deriving DecidableEq, Repr

/-- An entry stored in a multipart form payload: either a string field or a
binary file appended as-is (§4.1 rule 2). -/
inductive FormVal where
  | fStr : String → FormVal
  | fFile : String → FormVal
deriving DecidableEq, Repr

/-- Left-pad the decimal representation of `n` with zeros to `width`. -/
def padNum (width : Nat) (n : Nat) : String :=
  let s := toString n
  String.mk (List.replicate (width - s.length) '0') ++ s

/-- Modelled from the spec: civil date from a day count since 1970-01-01
(the Gregorian-calendar computation underlying JS Date). Returns
(year, month, day). -/
def civilFromDays (z0 : Nat) : Nat × Nat × Nat :=
  let z := z0 + 719468
  let era := z / 146097
  let doe := z % 146097
  let yoe := (doe - doe / 1460 + doe / 36524 - doe / 146096) / 365
  let y := yoe + era * 400
  let doy := doe - (365 * yoe + yoe / 4 - yoe / 100)
  let mp := (5 * doy + 2) / 153
  let d := doy - (153 * mp + 2) / 5 + 1
  let m := if mp < 10 then mp + 3 else mp - 9
  (if m ≤ 2 then y + 1 else y, m, d)

/-- Modelled from the spec: ISO-8601 serialization of a Date value
(§4.1 rule 2, "Date-typed values serialize to their ISO-8601 string
representation"), i.e. JS `Date.prototype.toISOString` for timestamps at or
after the epoch: `YYYY-MM-DDTHH:MM:SS.mmmZ`. -/
def toISOString (ms : Nat) : String :=
  let msOfDay := ms % 86400000
  let hh := msOfDay / 3600000
  let mi := msOfDay % 3600000 / 60000
  let ss := msOfDay % 60000 / 1000
  let mss := msOfDay % 1000
  let ymd := civilFromDays (ms / 86400000)
  padNum 4 ymd.1 ++ "-" ++ padNum 2 ymd.2.1 ++ "-" ++ padNum 2 ymd.2.2 ++ "T" ++
    padNum 2 hh ++ ":" ++ padNum 2 mi ++ ":" ++ padNum 2 ss ++ "." ++ padNum 3 mss ++ "Z"

/-- Is the value null or undefined? -/
def JsonVal.isNullish : JsonVal → Bool
  | .vNull => true
  | .vUndefined => true
  | _ => false

/-- How one body value becomes a multipart form entry. `none` means the
key/value pair contributes no entry at all. Null and undefined values are
skipped (the test "should skip null and undefined values in FormData",
Dropdown.test.tsx lines 990-1005, pins this down: reading such a key back
yields null, i.e. the key is absent); Date values serialize to ISO-8601;
files are appended as-is; all other values are converted to their string
form. -/
def toFormEntry : JsonVal → Option FormVal
  | .vNull => none
  | .vUndefined => none
  | .vStr s => some (.fStr s)
  | .vNum n => some (.fStr (toString n))
  | .vBool b => some (.fStr (if b then "true" else "false"))
  | .vDate ms => some (.fStr (toISOString ms))
  | .vFile f => some (.fFile f)

/-- Modelled from the spec: conversion of a request body (a mapping of field
names to values) into a multipart form payload (§4.1 rule 2), each key/value
pair becoming one field via `toFormEntry`. -/
def toFormData (body : List (String × JsonVal)) : List (String × FormVal) :=
  body.filterMap (fun kv => (toFormEntry kv.2).map (fun f => (kv.1, f)))

/-- JS FormData.get: the first entry stored under `k`, or `none` when the key
is absent (JS returns null). -/
def formGet (fd : List (String × FormVal)) (k : String) : Option FormVal :=
  (fd.find? (fun kv => kv.1 = k)).map (fun kv => kv.2)

/-- Modelled from the spec: the user record of a session, holding the bearer
token (`session.user.accessToken` in the tests). -/
structure SessionUser where
  accessToken : Option String
deriving DecidableEq, Repr

/-- Modelled from the spec: the externally owned Session (§3), an opaque
object containing a bearer token string. -/
structure Session where
  user : SessionUser
deriving DecidableEq, Repr

/-- The literal token text used when building the Authorization header: the
session token when present, the JS textual placeholder "undefined" when the
session or its token is absent (§4.1 rule 1). -/
def sessionTokenText : Option Session → String
  | some s =>
    match s.user.accessToken with
    | some t => t
    | none => "undefined"
  | none => "undefined"

/-- Modelled from the spec: the RequestConfig (§3): an optional
authentication flag, a header map and an optional body payload. -/
structure RequestConfig where
  authRequired : Option Bool
  headers : List (String × String)
  data : Option (List (String × JsonVal))
deriving DecidableEq, Repr

/-- Look a header up by exact name. -/
def getHeader (hs : List (String × String)) (name : String) : Option String :=
  (hs.find? (fun kv => kv.1 = name)).map (fun kv => kv.2)

/-- Set a header, replacing any existing entry of that name. -/
def setHeader (hs : List (String × String)) (name v : String) : List (String × String) :=
  (name, v) :: hs.filter (fun kv => kv.1 ≠ name)

/-- The outgoing body after the request interceptor ran: either the original
(possibly absent) JSON body, or a multipart form payload. -/
inductive Payload where
  | json : Option (List (String × JsonVal)) → Payload
  | form : List (String × FormVal) → Payload
deriving DecidableEq, Repr

/-- The transformed request configuration returned by the request
interceptor. -/
structure InterceptedConfig where
  headers : List (String × String)
  data : Payload
deriving DecidableEq, Repr

/-- Modelled from the spec: the request interceptor (§4.1). Given the
current session (as `getSession` would deliver it) and a RequestConfig it
returns the transformed config together with the flag recording whether the
session provider was invoked. Rules in order: (1) if `authRequired` is true,
fetch the session and set the `Authorization` header to
`"Bearer " ++ token`, falling back to the literal text of the undefined
token; otherwise skip the session lookup entirely; (2) if the
`Content-Type` header equals `multipart/form-data` exactly, convert the
body to a multipart payload (an absent body yields an empty payload). -/
def requestInterceptor (session : Option Session) (cfg : RequestConfig) :
    InterceptedConfig × Bool :=
  let auth := cfg.authRequired = some true
  let headers :=
    if auth then
      setHeader cfg.headers "Authorization" ("Bearer " ++ sessionTokenText session)
    else cfg.headers
  let payload :=
    if getHeader cfg.headers "Content-Type" = some "multipart/form-data" then
      Payload.form (toFormData (cfg.data.getD []))
    else Payload.json cfg.data
  (⟨headers, payload⟩, auth)

/-- Modelled from the spec: the BackendErrorPayload (§3) — the raw body a
failing response carries, with optional `message` and optional `code`. -/
structure ErrBody where
  message : Option String
  code : Option String
deriving DecidableEq, Repr

/-- The response attached to a failed transport error: HTTP status and the
(possibly null or missing) body. `data = none` models a null/missing body. -/
structure ErrResponse where
  status : Nat
  data : Option ErrBody
deriving DecidableEq, Repr

/-- Modelled from the spec: a thrown transport error (§4.3): an optional
error code string (e.g. "ECONNABORTED") and an optional response. -/
structure TransportError where
  code : Option String
  response : Option ErrResponse
deriving DecidableEq, Repr

/-- Modelled from the spec: the TypedError / ApiError (§3): message, code
and optional HTTP status; `status = none` models an undefined status. -/
structure ApiError where
  message : String
  code : String
  status : Option Nat
deriving DecidableEq, Repr

/-- Localized fallback message for an unknown error (from the tests). -/
def unknownErrorMessage : String := "알 수 없는 오류가 발생했습니다."

/-- Localized network-failure message (from the tests). -/
def networkErrorMessage : String := "네트워크 연결 상태를 확인해주세요."

/-- Localized timeout message (from the tests). -/
def timeoutMessage : String := "요청 시간이 초과되었습니다."

/-- Modelled from the spec: TypedError construction from a response (§4.3):
`message` = body.message if present else the localized fallback, `code` =
body.code if present else the literal "UNKNOWN_ERROR", `status` = the HTTP
status; a null or missing body is treated like an empty object. -/
def mkApiError (r : ErrResponse) : ApiError :=
  let body := r.data.getD ⟨none, none⟩
  ⟨body.message.getD unknownErrorMessage, body.code.getD "UNKNOWN_ERROR", some r.status⟩

/-- Supported locale codes, from src/src/i18n/routing.ts. -/
def locales : List String := ["ko", "en"]

/-- Default locale, from src/src/i18n/routing.ts. -/
def defaultLocale : String := "ko"

/-- Split a character list at every occurrence of the separator, keeping
empty pieces, exactly as JS String.prototype.split does. -/
def splitOnChar (c : Char) : List Char → List (List Char)
  | [] => [[]]
  | x :: xs =>
    match splitOnChar c xs with
    | [] => if x = c then [[], []] else [[x]]
    | y :: ys => if x = c then [] :: y :: ys else (x :: y) :: ys

/-- The segments of a path: the pieces between the slashes (JS
pathname.split on the slash), empty pieces included. -/
def pathSegments (p : String) : List String :=
  (splitOnChar '/' p.data).map (fun l => String.mk l)

/-- Modelled from the spec: locale extraction (§4.3): split the path on
the slash, take the first non-empty segment; use it if it is a supported
locale code, the default locale otherwise. -/
def getLocaleFromPath (p : String) : String :=
  match ((pathSegments p).filter (fun s => s ≠ "")).head? with
  | some s => if s ∈ locales then s else defaultLocale
  | none => defaultLocale

/-- Modelled from the spec: is the current path one of the public auth
pages (sign-in, sign-up)? The routing table serves them at `/signin` and
`/signup` under a mandatory locale segment. -/
def isAuthPage (p : String) : Bool :=
  List.isSuffixOf "/signin".data p.data || List.isSuffixOf "/signup".data p.data

/-- The side effects the response error handler performed: the local
storage key it removed (if any), whether sign-out was invoked and with
which redirect argument, and the path navigated to (if any). -/
structure HandlerEffects where
  removedLocalStorageKey : Option String
  signOutCalled : Bool
  signOutRedirect : Option Bool
  navigatedTo : Option String
deriving DecidableEq, Repr

/-- No side effects. -/
def noEffects : HandlerEffects := ⟨none, false, none, none⟩

/-- The outcome of the handler: resolve with no value, or reject with an
ApiError. -/
inductive HandlerOutcome where
  | resolved : HandlerOutcome
  | rejected : ApiError → HandlerOutcome
deriving DecidableEq, Repr

/-- The message of the rejection, when the outcome is a rejection. -/
def rejectedMessage : HandlerOutcome → Option String
  | .resolved => none
  | .rejected e => some e.message

/-- Modelled from the spec: the response error handler (§4.3), as a pure
function of the thrown transport error and the current pathname, returning
the side effects performed and the outcome. Ordered classification:
no response and a connection-abort code → reject with the timeout message;
no response otherwise → reject with the network-failure message; status 401
off the auth pages → remove the persisted `accessToken` key, sign out
without redirect, navigate to `/<locale>/signin` and resolve with no value;
every other response (401 on an auth page, ≥500, any other status) → reject
with the TypedError built from the response. -/
def responseErrorHandler (err : TransportError) (pathname : String) :
    HandlerEffects × HandlerOutcome :=
  match err.response with
  | none =>
    if err.code = some "ECONNABORTED" then
      (noEffects, .rejected ⟨timeoutMessage, "UNKNOWN_ERROR", none⟩)
    else
      (noEffects, .rejected ⟨networkErrorMessage, "UNKNOWN_ERROR", none⟩)
  | some r =>
    if r.status = 401 ∧ ¬ isAuthPage pathname then
      (⟨some "accessToken", true, some false,
        some ("/" ++ getLocaleFromPath pathname ++ "/signin")⟩, .resolved)
    else
      (noEffects, .rejected (mkApiError r))

/-- The transport envelope a verb call resolves with: the payload plus
transport-level fields. The facade must unwrap `data` and nothing else. -/
structure Envelope (α : Type) where
  data : α
  status : Nat
deriving DecidableEq, Repr

/-- Modelled from the spec: the read/get verb of the facade (§4.4): forward the
path and config to the get function of the transport layer, then return only the
unwrapped `data` field; a rejection passes through unchanged. The transport
is passed in as a function so the theorems quantify over every transport
behaviour. -/
def facadeGet {α : Type} (instGet : String → Option RequestConfig → Except ApiError (Envelope α))
    (url : String) (config : Option RequestConfig) : Except ApiError α :=
  (instGet url config).map Envelope.data

/-- Modelled from the spec: the create/post verb of the facade (§4.4): forward
path, body and config to the post function of the transport layer and unwrap `data`. -/
def facadePost {α β : Type}
    (instPost : String → Option β → Option RequestConfig → Except ApiError (Envelope α))
    (url : String) (body : Option β) (config : Option RequestConfig) : Except ApiError α :=
  (instPost url body config).map Envelope.data

/-- Modelled from the spec: the update/put verb of the facade (§4.4). -/
def facadePut {α β : Type}
    (instPut : String → Option β → Option RequestConfig → Except ApiError (Envelope α))
    (url : String) (body : Option β) (config : Option RequestConfig) : Except ApiError α :=
  (instPut url body config).map Envelope.data

/-- Modelled from the spec: the delete/remove verb of the facade (§4.4). -/
def facadeDelete {α : Type}
    (instDelete : String → Option RequestConfig → Except ApiError (Envelope α))
    (url : String) (config : Option RequestConfig) : Except ApiError α :=
  (instDelete url config).map Envelope.data

/-- The create verb called with body and config omitted: JS default parameters make
both arguments undefined, modelled as `none` (§4.4, "body defaults to
undefined when omitted"). -/
def facadePostNoBody {α β : Type}
    (instPost : String → Option β → Option RequestConfig → Except ApiError (Envelope α))
    (url : String) : Except ApiError α :=
  facadePost instPost url none none

namespace Dropdown

/-- Modelled from the spec: the local state of the Dropdown component (§1-2:
"a toggle/select state container"), as its tests observe it: the open flag
and the currently selected value (the default value initially, possibly
none). -/
structure State where
  isOpen : Bool
  selectedValue : Option String
deriving DecidableEq, Repr

/-- Initial state: closed, selection = the `defaultValue` prop. -/
def init (defaultValue : Option String) : State :=
  ⟨false, defaultValue⟩

/-- Modelled from the spec: `toggle` flips the open flag and touches nothing
else (tests "should preserve selected value when toggling"). -/
def toggle (s : State) : State :=
  ⟨!s.isOpen, s.selectedValue⟩

/-- Modelled from the spec: `onSelect v` stores `v` as the selected value
and closes the dropdown (tests "should update selectedValue state correctly
when onSelect is called", "should close dropdown after selection"). -/
def onSelect (_s : State) (v : String) : State :=
  ⟨false, some v⟩

end Dropdown

/-- Read a key back from the outgoing payload, as FormData.get would on a
multipart payload; a JSON payload has no form entries. -/
def payloadGet : Payload → String → Option FormVal
  | .form fd, k => formGet fd k
  | .json _, _ => none

/-- Null and undefined values contribute no multipart entry. -/
theorem toFormEntry_eq_none_of_isNullish (v : JsonVal) (h : v.isNullish = true) :
    toFormEntry v = none := by
  cases v <;> simp_all [JsonVal.isNullish, toFormEntry]

/-- Every other value contributes exactly one multipart entry. -/
theorem toFormEntry_isSome_of_not_isNullish (v : JsonVal) (h : v.isNullish = false) :
    ∃ f, toFormEntry v = some f := by
  cases v <;> first
    | exact ⟨_, rfl⟩
    | simp [JsonVal.isNullish] at h

/-- Unfolding the conversion on a pair that contributes no entry. -/
theorem toFormData_cons_none (k2 : String) (v : JsonVal) (tl : List (String × JsonVal))
    (h : toFormEntry v = none) : toFormData ((k2, v) :: tl) = toFormData tl := by
  simp [toFormData, List.filterMap_cons, h]

/-- Unfolding the conversion on a pair that contributes one entry. -/
theorem toFormData_cons_some (k2 : String) (v : JsonVal) (f : FormVal)
    (tl : List (String × JsonVal)) (h : toFormEntry v = some f) :
    toFormData ((k2, v) :: tl) = (k2, f) :: toFormData tl := by
  simp [toFormData, List.filterMap_cons, h]

/-- Reading a key back from a non-empty form payload. -/
theorem formGet_cons (k2 k : String) (f : FormVal) (fd : List (String × FormVal)) :
    formGet ((k2, f) :: fd) k = if k2 = k then some f else formGet fd k := by
  by_cases h : k2 = k <;> simp [formGet, List.find?_cons, h]

/-- A key all of whose values in the body are null or undefined yields no
entry at all in the converted multipart payload. -/
theorem formGet_toFormData_eq_none (k : String) :
    ∀ body : List (String × JsonVal),
      (∀ v, (k, v) ∈ body → v.isNullish = true) → formGet (toFormData body) k = none := by
  intro body
  induction body with
  | nil => intro _; rfl
  | cons hd tl ih =>
    intro hk
    obtain ⟨k2, v⟩ := hd
    have htl := ih (fun v hv => hk v (List.mem_cons_of_mem _ hv))
    by_cases hkk : k2 = k
    · subst hkk
      have hv : v.isNullish = true := hk v (List.mem_cons_self _ _)
      rw [toFormData_cons_none _ _ _ (toFormEntry_eq_none_of_isNullish v hv)]
      exact htl
    · by_cases hn : v.isNullish
      · rw [toFormData_cons_none _ _ _ (toFormEntry_eq_none_of_isNullish v hn)]
        exact htl
      · obtain ⟨f, hf⟩ := toFormEntry_isSome_of_not_isNullish v (by simpa using hn)
        rw [toFormData_cons_some _ _ _ _ hf, formGet_cons, if_neg hkk]
        exact htl

/-- Dropping the null/undefined pairs from a body before conversion changes
nothing: the conversion itself already drops them. -/
theorem toFormData_filter_nullish (body : List (String × JsonVal)) :
    toFormData (body.filter (fun kv => !kv.2.isNullish)) = toFormData body := by
  induction body with
  | nil => rfl
  | cons hd tl ih =>
    obtain ⟨k2, v⟩ := hd
    by_cases hn : v.isNullish
    · rw [List.filter_cons]
      simp only [hn]
      rw [toFormData_cons_none _ _ _ (toFormEntry_eq_none_of_isNullish v hn)]
      simpa using ih
    · obtain ⟨f, hf⟩ := toFormEntry_isSome_of_not_isNullish v (by simpa using hn)
      rw [List.filter_cons]
      simp only [hn, Bool.not_false, if_pos]
      rw [toFormData_cons_some _ _ _ _ hf, toFormData_cons_some _ _ _ _ hf, ih]

/-- C8: every Date-typed value in a multipart/form-data body serializes to
its ISO-8601 string representation; in particular the Date
2023-12-25T10:30:00Z (timestamp 1703500200000 ms) reads back from the
converted multipart payload as the exact string
"2023-12-25T10:30:00.000Z". -/
theorem date_values_serialize_to_iso8601 (ms : Nat) (k : String)
    (body : List (String × JsonVal)) :
    toFormEntry (.vDate ms) = some (.fStr (toISOString ms)) ∧
    toFormData ((k, .vDate ms) :: body) = (k, .fStr (toISOString ms)) :: toFormData body ∧
    payloadGet (requestInterceptor none ⟨none, [("Content-Type", "multipart/form-data")],
      some [("createdAt", .vDate 1703500200000)]⟩).1.data "createdAt" =
      some (.fStr "2023-12-25T10:30:00.000Z") := by
  refine ⟨rfl, ?_, by decide⟩
  exact toFormData_cons_some _ _ _ _ rfl

/-- C10: in the Dropdown state container, selecting any value v (the empty
string included) from any prior state stores v as the selected value and
closes the dropdown, while toggling flips the open flag and leaves the
selected value unchanged. -/
theorem dropdown_select_and_toggle (s : Dropdown.State) (v : String) :
    (Dropdown.onSelect s v).selectedValue = some v ∧
    (Dropdown.onSelect s v).isOpen = false ∧
    (Dropdown.toggle s).isOpen = !s.isOpen ∧
    (Dropdown.toggle s).selectedValue = s.selectedValue := by
  refine ⟨rfl, rfl, rfl, rfl⟩

/-- C5 counterexample: converting the multipart body of the test at
Dropdown.test.tsx lines 990-1005 (validField: "value", nullField: null,
undefinedField: undefined) yields a payload in which the keys nullField and
undefinedField are absent — reading them back gives none/null — refuting
the claim that an entry is kept for every null/undefined key. -/
theorem multipart_drops_nullish_keys_counterexample :
    payloadGet (requestInterceptor none ⟨none, [("Content-Type", "multipart/form-data")],
      some [("validField", .vStr "value"), ("nullField", .vNull),
            ("undefinedField", .vUndefined)]⟩).1.data "nullField" = none ∧
    payloadGet (requestInterceptor none ⟨none, [("Content-Type", "multipart/form-data")],
      some [("validField", .vStr "value"), ("nullField", .vNull),
            ("undefinedField", .vUndefined)]⟩).1.data "undefinedField" = none ∧
    payloadGet (requestInterceptor none ⟨none, [("Content-Type", "multipart/form-data")],
      some [("validField", .vStr "value"), ("nullField", .vNull),
            ("undefinedField", .vUndefined)]⟩).1.data "validField" =
      some (.fStr "value") := by
  decide

/-- C5 amended: for every RequestConfig whose Content-Type header equals
multipart/form-data, the converted payload contains no entry for a key all
of whose body values are null or undefined (reading the key back yields
null), and equals the conversion of the body with the null/undefined pairs
removed — those keys are dropped entirely, not serialized as empty
entries. -/
theorem multipart_drops_nullish_keys (session : Option Session) (cfg : RequestConfig)
    (k : String)
    (hct : getHeader cfg.headers "Content-Type" = some "multipart/form-data")
    (hk : ∀ v, (k, v) ∈ cfg.data.getD [] → v.isNullish = true) :
    ∃ fd, (requestInterceptor session cfg).1.data = Payload.form fd ∧
      formGet fd k = none ∧
      fd = toFormData ((cfg.data.getD []).filter (fun kv => !kv.2.isNullish)) := by
  refine ⟨toFormData (cfg.data.getD []), ?_, ?_, ?_⟩
  · simp [requestInterceptor, hct]
  · exact formGet_toFormData_eq_none k _ hk
  · exact (toFormData_filter_nullish _).symm

/-- C5 amended, witness at the test input: the nullField key of the concrete
multipart body maps only to null, so its entry is absent from the payload. -/
theorem multipart_drops_nullish_keys_witness :
    ∃ fd, (requestInterceptor none ⟨none, [("Content-Type", "multipart/form-data")],
      some [("validField", .vStr "value"), ("nullField", .vNull),
            ("undefinedField", .vUndefined)]⟩).1.data = Payload.form fd ∧
      formGet fd "nullField" = none ∧
      fd = toFormData ([("validField", JsonVal.vStr "value"), ("nullField", .vNull),
            ("undefinedField", .vUndefined)].filter (fun kv => !kv.2.isNullish)) := by
  have h := multipart_drops_nullish_keys none
    ⟨none, [("Content-Type", "multipart/form-data")],
      some [("validField", .vStr "value"), ("nullField", .vNull),
            ("undefinedField", .vUndefined)]⟩ "nullField" (by decide)
    (by
      intro v hv
      simp only [Option.getD, List.mem_cons, List.mem_singleton, Prod.mk.injEq] at hv
      rcases hv with ⟨h1, h2⟩ | ⟨h1, h2⟩ | ⟨h1, h2⟩ | h1
      · exact absurd h1 (by decide)
      · subst h2; rfl
      · exact absurd h1 (by decide)
      · exact absurd h1 (by simp))
  exact h

/-- C3: whenever authRequired is true the request interceptor invokes the
session provider and sets the Authorization header to "Bearer " followed by
the literal token text — the session token when present, the JS text
"undefined" when the session or its token is absent — so the header is
never omitted. -/
theorem auth_header_always_set (session : Option Session) (cfg : RequestConfig)
    (h : cfg.authRequired = some true) :
    (requestInterceptor session cfg).2 = true ∧
    getHeader (requestInterceptor session cfg).1.headers "Authorization" =
      some ("Bearer " ++ sessionTokenText session) ∧
    (∀ t, session = some ⟨⟨some t⟩⟩ →
      getHeader (requestInterceptor session cfg).1.headers "Authorization" =
        some ("Bearer " ++ t)) ∧
    ((session = none ∨ session = some ⟨⟨none⟩⟩) →
      getHeader (requestInterceptor session cfg).1.headers "Authorization" =
        some "Bearer undefined") ∧
    getHeader (requestInterceptor session cfg).1.headers "Authorization" ≠ none := by
  have hget : getHeader (requestInterceptor session cfg).1.headers "Authorization" =
      some ("Bearer " ++ sessionTokenText session) := by
    simp [requestInterceptor, h, setHeader, getHeader, List.find?_cons]
  refine ⟨by simp [requestInterceptor, h], hget, ?_, ?_, by simp [hget]⟩
  · intro t ht
    subst ht
    simpa [sessionTokenText] using hget
  · rintro (hs | hs) <;> subst hs <;> simpa [sessionTokenText] using hget

/-- C3 witness at the test inputs: a session with token test-token-123
yields the header Bearer test-token-123; a missing session yields the
header Bearer undefined. -/
theorem auth_header_always_set_witness :
    getHeader (requestInterceptor (some ⟨⟨some "test-token-123"⟩⟩)
        ⟨some true, [], none⟩).1.headers "Authorization" =
      some "Bearer test-token-123" ∧
    getHeader (requestInterceptor none ⟨some true, [], none⟩).1.headers "Authorization" =
      some "Bearer undefined" := by
  refine ⟨?_, ?_⟩
  · have h := auth_header_always_set (some ⟨⟨some "test-token-123"⟩⟩)
      ⟨some true, [], none⟩ rfl
    exact h.2.2.1 "test-token-123" rfl
  · have h := auth_header_always_set none ⟨some true, [], none⟩ rfl
    exact h.2.2.2.1 (Or.inl rfl)

/-- C4: whenever authRequired is false or absent the request interceptor
never invokes the session provider and leaves the headers untouched, so an
Authorization header absent from the incoming config stays absent. -/
theorem no_auth_no_session_lookup (session : Option Session) (cfg : RequestConfig)
    (h : cfg.authRequired = some false ∨ cfg.authRequired = none) :
    (requestInterceptor session cfg).2 = false ∧
    (requestInterceptor session cfg).1.headers = cfg.headers ∧
    (getHeader cfg.headers "Authorization" = none →
      getHeader (requestInterceptor session cfg).1.headers "Authorization" = none) := by
  have hne : ¬ (cfg.authRequired = some true) := by
    rcases h with h | h <;> simp [h]
  refine ⟨by simp [requestInterceptor, hne], ?_, ?_⟩
  · simp [requestInterceptor, hne]
  · intro hnone
    simpa [requestInterceptor, hne] using hnone

/-- C4 witness at the test inputs: authRequired false and authRequired
absent both skip the session lookup and leave the Authorization header
unset. -/
theorem no_auth_no_session_lookup_witness :
    (requestInterceptor (some ⟨⟨some "test-token-123"⟩⟩)
        ⟨some false, [], none⟩).2 = false ∧
    getHeader (requestInterceptor (some ⟨⟨some "test-token-123"⟩⟩)
        ⟨some false, [], none⟩).1.headers "Authorization" = none ∧
    (requestInterceptor (some ⟨⟨some "test-token-123"⟩⟩) ⟨none, [], none⟩).2 = false := by
  have h1 := no_auth_no_session_lookup (some ⟨⟨some "test-token-123"⟩⟩)
    ⟨some false, [], none⟩ (Or.inl rfl)
  have h2 := no_auth_no_session_lookup (some ⟨⟨some "test-token-123"⟩⟩)
    ⟨none, [], none⟩ (Or.inr rfl)
  exact ⟨h1.1, h1.2.2 rfl, h2.1⟩

/-- The locale extraction agrees with its explicit description: the first
non-empty path segment when it is ko or en, the default ko otherwise. -/
theorem getLocaleFromPath_eq (p : String) :
    getLocaleFromPath p =
      match ((pathSegments p).filter (fun s => s ≠ "")).head? with
      | some seg => if seg = "ko" ∨ seg = "en" then seg else "ko"
      | none => "ko" := by
  unfold getLocaleFromPath
  cases ((pathSegments p).filter (fun s => s ≠ "")).head? with
  | none => rfl
  | some seg => simp [locales, defaultLocale]

/-- C1: a transport error carrying a 401 response while the current path is
not a sign-in/sign-up page makes the response error handler remove the
persisted accessToken key, invoke sign-out with redirect disabled, navigate
to /locale/signin — the locale being the first path segment when it is one
of the supported codes ko or en and the default ko otherwise — and resolve
with no value instead of rejecting. -/
theorem unauthorized_401_recovery (err : TransportError) (r : ErrResponse) (p : String)
    (hr : err.response = some r) (h401 : r.status = 401) (hp : isAuthPage p = false) :
    (responseErrorHandler err p).1.removedLocalStorageKey = some "accessToken" ∧
    (responseErrorHandler err p).1.signOutCalled = true ∧
    (responseErrorHandler err p).1.signOutRedirect = some false ∧
    (responseErrorHandler err p).1.navigatedTo =
      some ("/" ++ (match ((pathSegments p).filter (fun s => s ≠ "")).head? with
        | some seg => if seg = "ko" ∨ seg = "en" then seg else "ko"
        | none => "ko") ++ "/signin") ∧
    (responseErrorHandler err p).2 = HandlerOutcome.resolved := by
  have hloc := getLocaleFromPath_eq p
  simp [responseErrorHandler, hr, h401, hp, hloc]

/-- C1 witness at the test inputs: a 401 on /ko/dashboard clears the token,
signs out without redirect, navigates to /ko/signin and resolves. -/
theorem unauthorized_401_recovery_witness :
    (responseErrorHandler ⟨none, some ⟨401, some ⟨some "Token expired", none⟩⟩⟩
        "/ko/dashboard").1.removedLocalStorageKey = some "accessToken" ∧
    (responseErrorHandler ⟨none, some ⟨401, some ⟨some "Token expired", none⟩⟩⟩
        "/ko/dashboard").1.signOutRedirect = some false ∧
    (responseErrorHandler ⟨none, some ⟨401, some ⟨some "Token expired", none⟩⟩⟩
        "/ko/dashboard").1.navigatedTo = some "/ko/signin" ∧
    (responseErrorHandler ⟨none, some ⟨401, some ⟨some "Token expired", none⟩⟩⟩
        "/ko/dashboard").2 = HandlerOutcome.resolved := by
  have h := unauthorized_401_recovery ⟨none, some ⟨401, some ⟨some "Token expired", none⟩⟩⟩
    ⟨401, some ⟨some "Token expired", none⟩⟩ "/ko/dashboard" rfl rfl (by decide)
  refine ⟨h.1, h.2.2.1, ?_, h.2.2.2.2⟩
  rw [h.2.2.2.1]
  decide

/-- C2: a transport error carrying a 401 response while the current path is
a sign-in or sign-up page makes the response error handler reject with the
ApiError built from the response, without invoking sign-out and without
navigating. -/
theorem unauthorized_401_on_auth_page_rejects (err : TransportError) (r : ErrResponse)
    (p : String) (hr : err.response = some r) (_h401 : r.status = 401)
    (hp : isAuthPage p = true) :
    (responseErrorHandler err p).1 = noEffects ∧
    (responseErrorHandler err p).1.signOutCalled = false ∧
    (responseErrorHandler err p).1.navigatedTo = none ∧
    (responseErrorHandler err p).2 = HandlerOutcome.rejected (mkApiError r) := by
  simp [responseErrorHandler, hr, hp, noEffects]

/-- C2 witness at the test input: a 401 on /ko/signin rejects with the
ApiError carrying the response body fields and performs no side effect. -/
theorem unauthorized_401_on_auth_page_rejects_witness :
    (responseErrorHandler
        ⟨none, some ⟨401, some ⟨some "Invalid credentials", some "INVALID_CREDENTIALS"⟩⟩⟩
        "/ko/signin").1.signOutCalled = false ∧
    (responseErrorHandler
        ⟨none, some ⟨401, some ⟨some "Invalid credentials", some "INVALID_CREDENTIALS"⟩⟩⟩
        "/ko/signin").2 =
      HandlerOutcome.rejected ⟨"Invalid credentials", "INVALID_CREDENTIALS", some 401⟩ := by
  have h := unauthorized_401_on_auth_page_rejects
    ⟨none, some ⟨401, some ⟨some "Invalid credentials", some "INVALID_CREDENTIALS"⟩⟩⟩
    ⟨401, some ⟨some "Invalid credentials", some "INVALID_CREDENTIALS"⟩⟩
    "/ko/signin" rfl rfl (by decide)
  exact ⟨h.2.1, h.2.2.2⟩

/-- C6: a transport error without a response rejects: with the localized
timeout message when its code is the connection-abort code ECONNABORTED,
and with the localized network-failure message otherwise; neither path
performs any side effect. -/
theorem no_response_classification (err : TransportError) (p : String)
    (hr : err.response = none) :
    (err.code ≠ some "ECONNABORTED" →
      (responseErrorHandler err p).2 =
        HandlerOutcome.rejected ⟨networkErrorMessage, "UNKNOWN_ERROR", none⟩) ∧
    (err.code = some "ECONNABORTED" →
      (responseErrorHandler err p).2 =
        HandlerOutcome.rejected ⟨timeoutMessage, "UNKNOWN_ERROR", none⟩) ∧
    (responseErrorHandler err p).1 = noEffects := by
  by_cases hc : err.code = some "ECONNABORTED" <;>
    simp [responseErrorHandler, hr, hc, noEffects]

/-- C6 witness at the test inputs: no response and no abort code yields the
network-failure rejection; no response with code ECONNABORTED yields the
timeout rejection. -/
theorem no_response_classification_witness :
    (responseErrorHandler ⟨none, none⟩ "/ko/dashboard").2 =
      HandlerOutcome.rejected ⟨networkErrorMessage, "UNKNOWN_ERROR", none⟩ ∧
    (responseErrorHandler ⟨some "ECONNABORTED", none⟩ "/ko/dashboard").2 =
      HandlerOutcome.rejected ⟨timeoutMessage, "UNKNOWN_ERROR", none⟩ := by
  have h1 := no_response_classification ⟨none, none⟩ "/ko/dashboard" rfl
  have h2 := no_response_classification ⟨some "ECONNABORTED", none⟩ "/ko/dashboard" rfl
  exact ⟨h1.1 (by simp), h2.2.1 rfl⟩

/-- C7: an error response whose body is an empty object, null or missing
yields the ApiError with the localized fallback message, the literal code
UNKNOWN_ERROR and the HTTP status of the response; a null body and an empty
object give identical results, and whenever the handler rejects such a
response (every case except the 401 recovery) it rejects with exactly that
error. -/
theorem empty_body_fallback_error (status : Nat) (d : Option ErrBody)
    (h : d = none ∨ d = some ⟨none, none⟩) :
    mkApiError ⟨status, d⟩ =
      ⟨unknownErrorMessage, "UNKNOWN_ERROR", some status⟩ ∧
    mkApiError ⟨status, none⟩ = mkApiError ⟨status, some ⟨none, none⟩⟩ ∧
    (∀ c p, (status = 401 → isAuthPage p = true) →
      (responseErrorHandler ⟨c, some ⟨status, d⟩⟩ p).2 =
        HandlerOutcome.rejected ⟨unknownErrorMessage, "UNKNOWN_ERROR", some status⟩) := by
  have hmk : mkApiError ⟨status, d⟩ =
      ⟨unknownErrorMessage, "UNKNOWN_ERROR", some status⟩ := by
    rcases h with h | h <;> subst h <;> rfl
  refine ⟨hmk, rfl, ?_⟩
  intro c p hcp
  have hneg : ¬ (status = 401 ∧ isAuthPage p = false) := by
    rintro ⟨ha, hb⟩
    rw [hcp ha] at hb
    exact absurd hb (by decide)
  simp [responseErrorHandler, hmk, hneg]

/-- C7 witness at the test input: a 400 response with a null body rejects
with the fallback message and the code UNKNOWN_ERROR, identically to an
empty-object body. -/
theorem empty_body_fallback_error_witness :
    mkApiError ⟨400, none⟩ = ⟨unknownErrorMessage, "UNKNOWN_ERROR", some 400⟩ ∧
    mkApiError ⟨400, none⟩ = mkApiError ⟨400, some ⟨none, none⟩⟩ ∧
    (responseErrorHandler ⟨none, some ⟨400, none⟩⟩ "/ko/dashboard").2 =
      HandlerOutcome.rejected ⟨unknownErrorMessage, "UNKNOWN_ERROR", some 400⟩ := by
  have h := empty_body_fallback_error 400 none (Or.inl rfl)
  exact ⟨h.1, h.2.1, h.2.2 none "/ko/dashboard" (fun hx => absurd hx (by decide))⟩

/-- A transport post function that records the arguments it was called
with, to observe that the facade forwards them unchanged. -/
def recordPost (β : Type) (u : String) (b : Option β) (c : Option RequestConfig) :
    Except ApiError (Envelope (String × Option β × Option RequestConfig)) :=
  Except.ok ⟨(u, b, c), 200⟩

/-- A transport get function that records the arguments it was called
with. -/
def recordGet (u : String) (c : Option RequestConfig) :
    Except ApiError (Envelope (String × Option RequestConfig)) :=
  Except.ok ⟨(u, c), 200⟩

/-- C9: every facade verb forwards its arguments to the transport layer
unchanged — the body forwarded as none (undefined) when omitted — returns
only the unwrapped data field of the envelope on success, and propagates a
rejection from the interceptor chain unchanged. The transport functions are
arbitrary, covering every interceptor-chain behaviour; the recording
transports observe the forwarded arguments. -/
theorem facade_unwraps_and_propagates (α β : Type)
    (g dl : String → Option RequestConfig → Except ApiError (Envelope α))
    (ps pu : String → Option β → Option RequestConfig → Except ApiError (Envelope α))
    (url : String) (body : Option β) (cfg : Option RequestConfig) :
    (∀ r, g url cfg = Except.ok r → facadeGet g url cfg = Except.ok r.data) ∧
    (∀ e, g url cfg = Except.error e → facadeGet g url cfg = Except.error e) ∧
    (∀ r, ps url body cfg = Except.ok r → facadePost ps url body cfg = Except.ok r.data) ∧
    (∀ e, ps url body cfg = Except.error e → facadePost ps url body cfg = Except.error e) ∧
    (∀ r, pu url body cfg = Except.ok r → facadePut pu url body cfg = Except.ok r.data) ∧
    (∀ e, pu url body cfg = Except.error e → facadePut pu url body cfg = Except.error e) ∧
    (∀ r, dl url cfg = Except.ok r → facadeDelete dl url cfg = Except.ok r.data) ∧
    (∀ e, dl url cfg = Except.error e → facadeDelete dl url cfg = Except.error e) ∧
    facadePostNoBody ps url = facadePost ps url none none ∧
    (∀ u2 b2 c2, facadePost (recordPost β) u2 b2 c2 = Except.ok (u2, b2, c2)) ∧
    (∀ u2 c2, facadeGet recordGet u2 c2 = Except.ok (u2, c2)) := by
  refine ⟨?_, ?_, ?_, ?_, ?_, ?_, ?_, ?_, rfl, ?_, ?_⟩ <;>
    intros <;> simp_all [facadeGet, facadePost, facadePut, facadeDelete,
      recordPost, recordGet, Except.map]

/-- C9 witness at the test inputs: a transport resolving with an envelope
whose data is get-success unwraps to get-success; a transport rejecting
with the ApiError named Delete failed propagates exactly that error; a
create with no body forwards the body none, not an empty object; the
recording transport shows the arguments arrive unchanged. -/
theorem facade_unwraps_and_propagates_witness :
    facadeGet (fun _ _ => (Except.ok ⟨"get-success", 200⟩ :
        Except ApiError (Envelope String))) "/test-endpoint" none =
      Except.ok "get-success" ∧
    facadeDelete (fun _ _ => (Except.error ⟨"Delete failed", "DELETE_ERROR", some 400⟩ :
        Except ApiError (Envelope String))) "/test-endpoint" none =
      Except.error (ApiError.mk "Delete failed" "DELETE_ERROR" (some 400)) ∧
    facadePostNoBody (recordPost String) "/test-endpoint" =
      Except.ok ("/test-endpoint", (none : Option String), (none : Option RequestConfig)) := by
  have h1 := facade_unwraps_and_propagates String String
    (fun _ _ => (Except.ok ⟨"get-success", 200⟩ : Except ApiError (Envelope String)))
    (fun _ _ => (Except.error ⟨"Delete failed", "DELETE_ERROR", some 400⟩ :
        Except ApiError (Envelope String)))
    (fun _ _ _ => (Except.ok ⟨"x", 200⟩ : Except ApiError (Envelope String)))
    (fun _ _ _ => (Except.ok ⟨"x", 200⟩ : Except ApiError (Envelope String)))
    "/test-endpoint" none none
  have h2 := facade_unwraps_and_propagates
    (String × Option String × Option RequestConfig) String
    (fun _ _ => (Except.ok ⟨("", none, none), 200⟩ :
        Except ApiError (Envelope (String × Option String × Option RequestConfig))))
    (fun _ _ => (Except.ok ⟨("", none, none), 200⟩ :
        Except ApiError (Envelope (String × Option String × Option RequestConfig))))
    (recordPost String) (recordPost String) "/test-endpoint" none none
  refine ⟨h1.1 ⟨"get-success", 200⟩ rfl, ?_, ?_⟩
  · exact h1.2.2.2.2.2.2.2.1 ⟨"Delete failed", "DELETE_ERROR", some 400⟩ rfl
  · rw [h2.2.2.2.2.2.2.2.2.1]
    exact h2.2.2.2.2.2.2.2.2.2.1 "/test-endpoint" none none
